import Mathlib

/-!
Shallow embedding of the `fluent-i18n` crate (locale resolution, per-thread
locale state, raw mode, value coercion, and the translation-lookup facade),
together with theorems settling the specification claims.

Sources embedded: `src/locale.rs`, `src/macros.rs`, `src/value.rs`,
`src/error.rs`.  External collaborators (the `unic_langid` parser, the
`sys_locale` probe, the `fluent_templates` static loader and the standard
library `OnceLock`) are modelled at their documented boundaries.
-/

namespace FluentI18n

/-- A structured locale tag with language/script/region subtags,
mirroring `unic_langid::LanguageIdentifier` as used by the crate
(equality is exact-tag comparison). -/
structure LanguageIdentifier where
  language : String
  script : Option String
  region : Option String
  deriving DecidableEq, Repr

/-- Modelled from the external `unic_langid::LanguageIdentifierError`:
the structured grammar diagnostic attached to a failed locale parse. -/
inductive LanguageIdentifierError where
  | Unknown : LanguageIdentifierError
  | ParserError : String → LanguageIdentifierError
  deriving DecidableEq, Repr

/-- The `Display` rendering of `LanguageIdentifierError` (external crate). -/
def LanguageIdentifierError.display : LanguageIdentifierError → String
  | .Unknown => "Unknown error"
  | .ParserError m => m

/-- The external locale grammar: `s.parse::<LanguageIdentifier>()`.
The embedding is parameterized over this boundary; a string is
malformed exactly when the parser returns an error. -/
def ParseFn : Type := String → Except LanguageIdentifierError LanguageIdentifier

/-- `DEFAULT_LOCALE` from `src/locale.rs`: `langid!("en-US")`. -/
def DEFAULT_LOCALE : LanguageIdentifier :=
  { language := "en", script := none, region := some "US" }

/-- The per-thread (execution-context) state of `src/locale.rs`:
the `CURRENT_LOCALE` and `RAW_MODE_ENABLED` thread-locals. -/
structure ThreadState where
  currentLocale : Option LanguageIdentifier
  rawModeEnabled : Bool
  deriving DecidableEq, Repr

/-- The initial value of the thread-locals:
`CURRENT_LOCALE = None`, `RAW_MODE_ENABLED = false`. -/
def ThreadState.init : ThreadState :=
  { currentLocale := none, rawModeEnabled := false }

/-- The crate error type from `src/error.rs`: `Error::LocaleParseError`
carries the offending literal locale string and the source grammar
diagnostic. -/
inductive Error where
  | LocaleParseError : String → LanguageIdentifierError → Error
  deriving DecidableEq, Repr

/-- Field accessor for the `locale` field of `Error::LocaleParseError`. -/
def Error.locale : Error → String
  | .LocaleParseError l _ => l

/-- Field accessor for the `source` field of `Error::LocaleParseError`. -/
def Error.source : Error → LanguageIdentifierError
  | .LocaleParseError _ s => s

/-- `set_locale` from `src/locale.rs` (lines 69-94).  `sysLocale` models
the result of `sys_locale::get_locale()`; `fallbackLocale` models the
contents of the `FALLBACK_LOCALE` once-cell.  On success the returned
state has the parsed/derived identifier stored in `CURRENT_LOCALE`;
on a parse failure the `?` operator returns before the thread-local
write, so no new state is produced. -/
def set_locale (parse : ParseFn) (sysLocale : Option String)
    (fallbackLocale : Option LanguageIdentifier)
    (st : ThreadState) (locale : Option String) : Except Error ThreadState :=
  match locale with
  | some loc =>
    match parse loc with
    | .ok langid => .ok { st with currentLocale := some langid }
    | .error source => .error (.LocaleParseError loc source)
  | none =>
    match sysLocale with
    | some sysLoc =>
      match parse sysLoc with
      | .ok langid => .ok { st with currentLocale := some langid }
      | .error source => .error (.LocaleParseError sysLoc source)
    | none =>
      match fallbackLocale with
      | some fallback => .ok { st with currentLocale := some fallback }
      | none => .ok { st with currentLocale := some DEFAULT_LOCALE }

/-- The thread-local state as left behind by a call to `set_locale`:
the `CURRENT_LOCALE.with` write happens only on the success path, so a
failing call leaves the previous state in place. -/
def set_locale_run (parse : ParseFn) (sysLocale : Option String)
    (fallbackLocale : Option LanguageIdentifier)
    (st : ThreadState) (locale : Option String) : ThreadState :=
  match set_locale parse sysLocale fallbackLocale st locale with
  | .ok st2 => st2
  | .error _ => st

/-- `get_locale` from `src/locale.rs` (lines 108-115): stored current
locale, else the `FALLBACK_LOCALE` cell, else `DEFAULT_LOCALE`. -/
def get_locale (fallbackLocale : Option LanguageIdentifier)
    (st : ThreadState) : LanguageIdentifier :=
  match st.currentLocale with
  | some l => l
  | none =>
    match fallbackLocale with
    | some f => f
    | none => DEFAULT_LOCALE

/-- `set_raw_mode` from `src/locale.rs` (lines 122-126): writes the
`RAW_MODE_ENABLED` thread-local of the current context. -/
def set_raw_mode (st : ThreadState) (enabled : Bool) : ThreadState :=
  { st with rawModeEnabled := enabled }

/-- `OnceLock::set(v).ok()` on the `FALLBACK_LOCALE` cell (`src/locale.rs`
line 50, written from `i18n!` in `src/macros.rs` lines 46-48): the first
write fills the empty cell, every later write is discarded. -/
def onceLock_set (cell : Option LanguageIdentifier)
    (value : LanguageIdentifier) : Option LanguageIdentifier :=
  match cell with
  | some x => some x
  | none => some value

/-- The fallback-setting step of the `i18n!` macro (`src/macros.rs`
lines 46-48): `FALLBACK_LOCALE.set($fallback.parse().expect(..)).ok()`.
The `.expect` panic on an unparseable fallback literal is modelled as
`none`; on parse success the once-cell is updated (set-once). -/
def i18n_set_fallback (parse : ParseFn)
    (cell : Option LanguageIdentifier) (fallbackStr : String) :
    Option (Option LanguageIdentifier) :=
  match parse fallbackStr with
  | .ok l => some (onceLock_set cell l)
  | .error _ => none

/-- The `thread_local!` storage of `src/locale.rs` across execution
contexts: one independent `ThreadState` per context (indexed by a
thread id).  `set_locale` invoked on context `i` runs against context
`i`'s own cell only. -/
def set_locale_at (parse : ParseFn) (sysLocale : Option String)
    (fallbackLocale : Option LanguageIdentifier)
    (ctxs : Nat → ThreadState) (i : Nat) (locale : Option String) :
    Nat → ThreadState :=
  fun j =>
    if j = i then set_locale_run parse sysLocale fallbackLocale (ctxs i) locale
    else ctxs j

/-- The catalog's interpolation value type, mirroring
`fluent_bundle::FluentValue` as re-exported in `src/value.rs`. -/
inductive FluentValue where
  | Str : String → FluentValue
  | Number : Int → FluentValue
  | Custom : FluentValue
  | None : FluentValue
  | Error : FluentValue
  deriving DecidableEq, Repr

/-- The `ToFluentValue` trait of `src/value.rs`. -/
class ToFluentValue (α : Type) where
  to_fluent_value : α → FluentValue

export ToFluentValue (to_fluent_value)

/-- `impl ToFluentValue for String` (via `impl_fluent_for!` in
`src/value.rs`): `FluentValue::from(String)` is the string variant. -/
instance : ToFluentValue String where
  to_fluent_value s := .Str s

/-- Integer primitives (`usize`, `u8`, ..., `i64`) via `impl_fluent_for!`
in `src/value.rs`: `FluentValue::from` yields the number variant. -/
instance : ToFluentValue Int where
  to_fluent_value n := .Number n

/-- Same, for the unsigned primitives modelled as `Nat`. -/
instance : ToFluentValue Nat where
  to_fluent_value n := .Number (Int.ofNat n)

/-- `impl<T> ToFluentValue for Option<T> where T: ToFluentValue`
(`src/value.rs` lines 43-54): a present value converts through the
inner conversion, an absent one to `FluentValue::None`. -/
instance (α : Type) [ToFluentValue α] : ToFluentValue (Option α) where
  to_fluent_value o :=
    match o with
    | some value => to_fluent_value value
    | none => .None

/-- Modelled from the external `fluent_templates` static loader as
fixed by `i18n!` / `static_loader!`: per-locale message bundles (a
message renders against an argument list) and the configured
`fallback_language`. -/
structure StaticLoader where
  messages : LanguageIdentifier → String → Option (List (String × FluentValue) → String)
  fallbackLanguage : LanguageIdentifier

/-- The loader's own fallback chain (`try_lookup_with_args`): the
requested locale's bundle first, then the `fallback_language` bundle;
`none` means the key is missing everywhere. -/
def StaticLoader.try_lookup_with_args (L : StaticLoader)
    (lang : LanguageIdentifier) (key : String)
    (args : List (String × FluentValue)) : Option String :=
  match L.messages lang key with
  | some render => some (render args)
  | none =>
    match L.messages L.fallbackLanguage key with
    | some render => some (render args)
    | none => none

/-- The fixed missing-key diagnostic of `fluent_templates::Loader::lookup`,
as encoded by the crate's tests:
`Unknown localization key: "<key>"`. -/
def lookup_diagnostic (key : String) : String :=
  "Unknown localization key: \"" ++ key ++ "\""

/-- `Loader::lookup(lang, key)`: the translated string, or the fixed
missing-key diagnostic.  Never fails. -/
def StaticLoader.lookup (L : StaticLoader) (lang : LanguageIdentifier)
    (key : String) : String :=
  match L.try_lookup_with_args lang key [] with
  | some s => s
  | none => lookup_diagnostic key

/-- `Loader::lookup_with_args(lang, key, args)`: as `lookup`, with the
coerced argument map passed through to the message renderer. -/
def StaticLoader.lookup_with_args (L : StaticLoader)
    (lang : LanguageIdentifier) (key : String)
    (args : List (String × FluentValue)) : String :=
  match L.try_lookup_with_args lang key args with
  | some s => s
  | none => lookup_diagnostic key

/-- The `t!("key")` macro arm (`src/macros.rs` lines 128-131):
`LOCALES.lookup(&get_locale(), key)`.  Note the expansion reads only
`CURRENT_LOCALE` / `FALLBACK_LOCALE` through `get_locale`; it performs
no check of the `RAW_MODE_ENABLED` thread-local. -/
def t (L : StaticLoader) (fallbackLocale : Option LanguageIdentifier)
    (st : ThreadState) (key : String) : String :=
  L.lookup (get_locale fallbackLocale st) key

/-- The `t!("key", { arg => val, .. })` macro arm (`src/macros.rs`
lines 134-143): coerce each value with `to_fluent_value`, then
`LOCALES.lookup_with_args(&get_locale(), key, &args)`.  As with the
no-argument arm, `RAW_MODE_ENABLED` is not consulted. -/
def t_args (L : StaticLoader) (fallbackLocale : Option LanguageIdentifier)
    (st : ThreadState) (key : String)
    (args : List (String × FluentValue)) : String :=
  L.lookup_with_args (get_locale fallbackLocale st) key args

/-- The `Display` implementation of `Error` derived by `thiserror` in
`src/error.rs` (lines 8-18): format string `"{msg}\n{source}"` with
`msg = t!("error-locale-parse", { "locale" => locale })`. -/
def Error.display (L : StaticLoader)
    (fallbackLocale : Option LanguageIdentifier) (st : ThreadState) :
    Error → String
  | .LocaleParseError locale source =>
    t_args L fallbackLocale st "error-locale-parse"
        [("locale", to_fluent_value locale)]
      ++ "\n" ++ source.display

/-- A concrete stand-in for the external parser boundary, used only to
instantiate witnesses: accepts the tags appearing in the crate's tests,
rejects anything else. -/
def demoParse : ParseFn := fun s =>
  if s = "en-US" then
    .ok { language := "en", script := none, region := some "US" }
  else if s = "fr-FR" then
    .ok { language := "fr", script := none, region := some "FR" }
  else if s = "ja-JP" then
    .ok { language := "ja", script := none, region := some "JP" }
  else
    .error .Unknown

/-- `langid!("en-US")`, written out for concrete instantiations. -/
def enUS : LanguageIdentifier :=
  { language := "en", script := none, region := some "US" }

/-- `langid!("fr-FR")`, written out for concrete instantiations. -/
def frFR : LanguageIdentifier :=
  { language := "fr", script := none, region := some "FR" }

/-- A concrete loader shaped like `tests/locales` (used to instantiate
witnesses): an English bundle with `greeting` and `error-locale-parse`,
a French bundle with `greeting`, and `en-US` as the fallback language. -/
def demoLoader : StaticLoader where
  messages := fun lang key =>
    if lang = enUS then
      if key = "greeting" then some (fun _ => "Hello, world!")
      else if key = "error-locale-parse" then
        some (fun args =>
          match args with
          | ("locale", FluentValue.Str l) :: _ =>
            "Could not parse locale \"" ++ l ++ "\""
          | _ => "Could not parse locale")
      else none
    else if lang = frFR then
      if key = "greeting" then some (fun _ => "Bonjour, le monde!")
      else none
    else none
  fallbackLanguage := enUS

/-! Theorems settling the specification claims. -/

/-- Claim C1.  The claim says that with raw mode enabled, lookup returns
the key verbatim without querying the catalog.  The `t!` expansion in
`src/macros.rs` never reads `RAW_MODE_ENABLED`, so lookup returns the
catalog translation even after `set_raw_mode(true)` — contradicting the
crate's own `test_raw_mode` test and the doc comments of `set_raw_mode`
and `RAW_MODE_ENABLED`.  This theorem evaluates the embedded code at the
failing input: raw mode on, locale `en-US`, key `"greeting"`. -/
theorem c1_raw_mode_ignored_by_lookup :
    (set_raw_mode { currentLocale := some enUS, rawModeEnabled := false } true).rawModeEnabled
        = true
    ∧ t demoLoader none
        (set_raw_mode { currentLocale := some enUS, rawModeEnabled := false } true)
        "greeting" = "Hello, world!"
    ∧ ("Hello, world!" : String) ≠ "greeting" := by
  refine ⟨rfl, by decide, by decide⟩

/-- Claim C2.  `set_locale(None)` resolves in order: a present system
locale signal is parsed, with a parse failure a hard `LocaleParseError`
(the malformed detected value is not skipped); with no signal, a set
`FALLBACK_LOCALE` is stored; with neither, `DEFAULT_LOCALE` (`"en-US"`)
is stored. -/
theorem c2_set_locale_none_resolution (parse : ParseFn)
    (fallbackLocale : Option LanguageIdentifier) (st : ThreadState) :
    (∀ s l, parse s = .ok l →
      set_locale parse (some s) fallbackLocale st none
        = .ok { st with currentLocale := some l })
    ∧ (∀ s e, parse s = .error e →
      set_locale parse (some s) fallbackLocale st none
        = .error (.LocaleParseError s e))
    ∧ (∀ f, fallbackLocale = some f →
      set_locale parse none fallbackLocale st none
        = .ok { st with currentLocale := some f })
    ∧ (fallbackLocale = none →
      set_locale parse none fallbackLocale st none
        = .ok { st with currentLocale := some DEFAULT_LOCALE }) := by
  refine ⟨fun s l h => ?_, fun s e h => ?_, fun f h => ?_, fun h => ?_⟩ <;>
    simp [set_locale, h]

/-- Witness for C2: each branch of the resolution order exercised at a
concrete input. -/
theorem c2_witness :
    set_locale demoParse (some "ja-JP") none ThreadState.init none
        = .ok { ThreadState.init with
                  currentLocale := some { language := "ja", script := none,
                                          region := some "JP" } }
    ∧ set_locale demoParse (some "???") none ThreadState.init none
        = .error (.LocaleParseError "???" .Unknown)
    ∧ set_locale demoParse none (some frFR) ThreadState.init none
        = .ok { ThreadState.init with currentLocale := some frFR }
    ∧ set_locale demoParse none none ThreadState.init none
        = .ok { ThreadState.init with currentLocale := some DEFAULT_LOCALE } :=
  ⟨(c2_set_locale_none_resolution demoParse none ThreadState.init).1
      "ja-JP" _ rfl,
   (c2_set_locale_none_resolution demoParse none ThreadState.init).2.1
      "???" .Unknown rfl,
   (c2_set_locale_none_resolution demoParse (some frFR) ThreadState.init).2.2.1
      frFR rfl,
   (c2_set_locale_none_resolution demoParse none ThreadState.init).2.2.2 rfl⟩

/-- Claim C3.  For every malformed locale string `s`, `set_locale(Some(s))`
returns a `LocaleParseError` carrying the literal input `s`, and the
stored current-locale state of the context is unchanged: `get_locale`
after the failed call agrees with `get_locale` before it. -/
theorem c3_malformed_locale_error_state_unchanged (parse : ParseFn)
    (sysLocale : Option String) (fallbackLocale : Option LanguageIdentifier)
    (st : ThreadState) (s : String) (e : LanguageIdentifierError)
    (h : parse s = .error e) :
    set_locale parse sysLocale fallbackLocale st (some s)
        = .error (.LocaleParseError s e)
    ∧ (Error.LocaleParseError s e).locale = s
    ∧ set_locale_run parse sysLocale fallbackLocale st (some s) = st
    ∧ get_locale fallbackLocale
        (set_locale_run parse sysLocale fallbackLocale st (some s))
        = get_locale fallbackLocale st := by
  refine ⟨?_, rfl, ?_, ?_⟩ <;> simp [set_locale, set_locale_run, h, Error.locale]

/-- Witness for C3: the malformed input `"???"` against the concrete
parser, starting from a context whose locale is `fr-FR`. -/
theorem c3_witness :
    set_locale demoParse none none
        { currentLocale := some frFR, rawModeEnabled := false } (some "???")
        = .error (.LocaleParseError "???" .Unknown)
    ∧ get_locale none
        (set_locale_run demoParse none none
          { currentLocale := some frFR, rawModeEnabled := false } (some "???"))
        = get_locale none { currentLocale := some frFR, rawModeEnabled := false } :=
  ⟨(c3_malformed_locale_error_state_unchanged demoParse none none
      { currentLocale := some frFR, rawModeEnabled := false } "???" .Unknown
      rfl).1,
   (c3_malformed_locale_error_state_unchanged demoParse none none
      { currentLocale := some frFR, rawModeEnabled := false } "???" .Unknown
      rfl).2.2.2⟩

/-- Claim C4.  The process-wide `FALLBACK_LOCALE` once-cell is
write-once: after the first successful set to `X`, a later plain set and
a later set through a second `i18n!` initialization (with a parseable
different fallback) are no-ops, and resolution with no current locale
still reports `X`. -/
theorem c4_fallback_write_once (parse : ParseFn) (X Y lY : LanguageIdentifier)
    (Ystr : String) (st : ThreadState)
    (hParse : parse Ystr = .ok lY) (hCur : st.currentLocale = none) :
    onceLock_set none X = some X
    ∧ onceLock_set (some X) Y = some X
    ∧ i18n_set_fallback parse (some X) Ystr = some (some X)
    ∧ get_locale (some X) st = X := by
  refine ⟨rfl, rfl, ?_, ?_⟩ <;>
    simp [i18n_set_fallback, hParse, onceLock_set, get_locale, hCur]

/-- Witness for C4: fallback first set to `fr-FR`, a later attempt with
`"en-US"` leaves it at `fr-FR`, and resolution reports `fr-FR`. -/
theorem c4_witness :
    onceLock_set none frFR = some frFR
    ∧ onceLock_set (some frFR) enUS = some frFR
    ∧ i18n_set_fallback demoParse (some frFR) "en-US" = some (some frFR)
    ∧ get_locale (some frFR) ThreadState.init = frFR :=
  c4_fallback_write_once demoParse frFR enUS enUS "en-US" ThreadState.init
    rfl rfl

/-- Claim C5.  `get_locale()` is total (a Lean function, never failing by
construction) and returns the context's stored locale when set, else the
process-wide fallback when set, else `DEFAULT_LOCALE` (`"en-US"`). -/
theorem c5_get_locale_total (fallbackLocale : Option LanguageIdentifier)
    (st : ThreadState) :
    (∀ l, st.currentLocale = some l → get_locale fallbackLocale st = l)
    ∧ (∀ f, st.currentLocale = none → fallbackLocale = some f →
        get_locale fallbackLocale st = f)
    ∧ (st.currentLocale = none → fallbackLocale = none →
        get_locale fallbackLocale st = DEFAULT_LOCALE) := by
  refine ⟨fun l h => ?_, fun f h1 h2 => ?_, fun h1 h2 => ?_⟩
  · simp [get_locale, h]
  · simp [get_locale, h1, h2]
  · simp [get_locale, h1, h2]

/-- Witness for C5: all three branches at concrete states. -/
theorem c5_witness :
    get_locale (some enUS) { currentLocale := some frFR, rawModeEnabled := false }
        = frFR
    ∧ get_locale (some frFR) ThreadState.init = frFR
    ∧ get_locale none ThreadState.init = DEFAULT_LOCALE :=
  ⟨(c5_get_locale_total (some enUS)
      { currentLocale := some frFR, rawModeEnabled := false }).1 frFR rfl,
   (c5_get_locale_total (some frFR) ThreadState.init).2.1 frFR rfl rfl,
   (c5_get_locale_total none ThreadState.init).2.2 rfl rfl⟩

/-- Claim C6.  `set_locale` in one execution context changes only that
context: every other context's full thread state, hence its resolved
locale and raw-mode flag, is unchanged; and two contexts that set
different (parseable) locales each observe their own afterwards. -/
theorem c6_thread_isolation (parse : ParseFn) (sysLocale : Option String)
    (fallbackLocale : Option LanguageIdentifier) (ctxs : Nat → ThreadState)
    (i j : Nat) (locale : Option String) (a b : String)
    (la lb : LanguageIdentifier) (hij : j ≠ i)
    (ha : parse a = .ok la) (hb : parse b = .ok lb) :
    set_locale_at parse sysLocale fallbackLocale ctxs i locale j = ctxs j
    ∧ get_locale fallbackLocale
        (set_locale_at parse sysLocale fallbackLocale ctxs i locale j)
        = get_locale fallbackLocale (ctxs j)
    ∧ (set_locale_at parse sysLocale fallbackLocale ctxs i locale j).rawModeEnabled
        = (ctxs j).rawModeEnabled
    ∧ get_locale fallbackLocale
        (set_locale_at parse sysLocale fallbackLocale
          (set_locale_at parse sysLocale fallbackLocale ctxs i (some a))
          j (some b) i) = la
    ∧ get_locale fallbackLocale
        (set_locale_at parse sysLocale fallbackLocale
          (set_locale_at parse sysLocale fallbackLocale ctxs i (some a))
          j (some b) j) = lb := by
  have hji : i ≠ j := fun h => hij h.symm
  have hframe : set_locale_at parse sysLocale fallbackLocale ctxs i locale j
      = ctxs j := by
    simp [set_locale_at, hij]
  refine ⟨hframe, by rw [hframe], by rw [hframe], ?_, ?_⟩
  · simp [set_locale_at, hij, hji, set_locale_run, set_locale, ha, get_locale]
  · simp [set_locale_at, hij, set_locale_run, set_locale, hb, get_locale]

/-- Witness for C6: contexts `0` and `1` starting from the initial
state, context `0` setting `fr-FR` and context `1` setting `ja-JP`. -/
theorem c6_witness :
    set_locale_at demoParse none none (fun _ => ThreadState.init) 0
        (some "fr-FR") 1 = ThreadState.init
    ∧ get_locale none
        (set_locale_at demoParse none none
          (set_locale_at demoParse none none (fun _ => ThreadState.init) 0
            (some "fr-FR"))
          1 (some "ja-JP") 0) = frFR
    ∧ get_locale none
        (set_locale_at demoParse none none
          (set_locale_at demoParse none none (fun _ => ThreadState.init) 0
            (some "fr-FR"))
          1 (some "ja-JP") 1)
        = { language := "ja", script := none, region := some "JP" } :=
  ⟨(c6_thread_isolation demoParse none none (fun _ => ThreadState.init) 0 1
      (some "fr-FR") "fr-FR" "ja-JP" frFR
      { language := "ja", script := none, region := some "JP" }
      (by decide) rfl rfl).1,
   (c6_thread_isolation demoParse none none (fun _ => ThreadState.init) 0 1
      (some "fr-FR") "fr-FR" "ja-JP" frFR
      { language := "ja", script := none, region := some "JP" }
      (by decide) rfl rfl).2.2.2.1,
   (c6_thread_isolation demoParse none none (fun _ => ThreadState.init) 0 1
      (some "fr-FR") "fr-FR" "ja-JP" frFR
      { language := "ja", script := none, region := some "JP" }
      (by decide) rfl rfl).2.2.2.2⟩

/-- Claim C7.  For a key missing in the current locale's bundle and in
the loader's whole fallback chain, lookup returns the fixed diagnostic
string, which contains the literal requested key verbatim; lookup is a
total function, so it never throws and always produces a string. -/
theorem c7_missing_key_diagnostic (L : StaticLoader)
    (fallbackLocale : Option LanguageIdentifier) (st : ThreadState)
    (key : String)
    (h1 : L.messages (get_locale fallbackLocale st) key = none)
    (h2 : L.messages L.fallbackLanguage key = none) :
    t L fallbackLocale st key = lookup_diagnostic key
    ∧ ∃ pre post, t L fallbackLocale st key = pre ++ key ++ post := by
  have ht : t L fallbackLocale st key = lookup_diagnostic key := by
    simp [t, StaticLoader.lookup, StaticLoader.try_lookup_with_args, h1, h2]
  exact ⟨ht, "Unknown localization key: \"", "\"", ht⟩

/-- Witness for C7: the key `"nonexistent-key"` missing from both the
French and the fallback English bundles of the concrete loader. -/
theorem c7_witness :
    t demoLoader none { currentLocale := some frFR, rawModeEnabled := false }
        "nonexistent-key"
        = "Unknown localization key: \"nonexistent-key\"" := by
  have h := c7_missing_key_diagnostic demoLoader none
    { currentLocale := some frFR, rawModeEnabled := false }
    "nonexistent-key" rfl rfl
  rw [h.1]
  rfl

/-- Claim C8.  Coercing an absent optional yields the catalog's explicit
no-value sentinel `FluentValue::None`, for every coercible element type,
and that sentinel is distinct from the coercion of an empty string. -/
theorem c8_absent_optional_none_sentinel (α : Type) [ToFluentValue α] :
    to_fluent_value (none : Option α) = FluentValue.None
    ∧ to_fluent_value ("" : String) = FluentValue.Str ""
    ∧ to_fluent_value (none : Option String) ≠ to_fluent_value ("" : String) :=
  ⟨rfl, rfl, by decide⟩

/-- Claim C9.  The `Display` rendering of `LocaleParseError` goes through
the same lookup mechanism as ordinary translations, with the fixed key
`"error-locale-parse"` and the offending literal as the `locale`
interpolation argument; the error value carries both the literal and the
structured grammar diagnostic.  The final conjunct instantiates the
rendering at a concrete loader whose `error-locale-parse` template embeds
the literal. -/
theorem c9_error_display_via_lookup (L : StaticLoader)
    (fallbackLocale : Option LanguageIdentifier) (st : ThreadState)
    (locale : String) (source : LanguageIdentifierError) :
    Error.display L fallbackLocale st (.LocaleParseError locale source)
        = t_args L fallbackLocale st "error-locale-parse"
            [("locale", to_fluent_value locale)] ++ "\n" ++ source.display
    ∧ (Error.LocaleParseError locale source).locale = locale
    ∧ (Error.LocaleParseError locale source).source = source
    ∧ Error.display demoLoader none
        { currentLocale := some enUS, rawModeEnabled := false }
        (.LocaleParseError "???" .Unknown)
        = "Could not parse locale \"???\"\nUnknown error" :=
  ⟨rfl, rfl, rfl, by decide⟩

/-- Claim C10.  Coercing a present optional `Some(v)` yields exactly the
coercion of `v` itself, for every coercible type: wrapping an argument in
a present optional never changes the interpolation value. -/
theorem c10_some_coercion_transparent (α : Type) [ToFluentValue α] (v : α) :
    to_fluent_value (some v) = to_fluent_value v :=
  rfl

end FluentI18n
